import Mathlib

/-!
Verification of the two-hand gesture classification and stabilization engine
(`gesture_recognizer.py`, `hand_detector.py`) of the Naruto hand-gesture
repository, as a shallow embedding in Lean 4.

Conventions of the embedding:
* Python floats (confidences, timestamps, pixel coordinates) are modelled as
  rationals (`ℚ`); every arithmetic operation the code performs on them is
  exact in `ℚ`.
* Python code that can raise an exception is modelled with `Option`: a result
  of `none` represents an uncaught exception propagating to the caller.
* `math.sqrt` appears only in comparisons of the form `sqrt d > t` with a
  nonnegative right-hand side; each such comparison is embedded by the exact
  equivalent squared comparison (see `gtMarginSq` and the centroid-distance
  check), keeping every definition executable and decidable.
-/

/-- The per-finger boolean "extended" states of one hand, as returned by
`HandDetector.get_finger_states` (a dict with exactly the five keys
`thumb, index, middle, ring, pinky`). -/
structure FingerStates where
  thumb : Bool
  index : Bool
  middle : Bool
  ring : Bool
  pinky : Bool
deriving DecidableEq

/-- One entry of `GESTURE_DEFINITIONS`: a two-hand gesture template.
Every template in the source dictionary carries a complete five-finger
pattern for each hand, a `hands_close` flag and a priority. The unused
`description` string is omitted. -/
structure GestureTemplate where
  id : String
  display : String
  left_hand : FingerStates
  right_hand : FingerStates
  hands_close : Bool
  priority : Nat
deriving DecidableEq

/-- The `GESTURE_DEFINITIONS` dictionary of `gesture_recognizer.py`, in its
insertion order (which Python dict iteration preserves). -/
def GESTURE_DEFINITIONS : List GestureTemplate :=
  [ ⟨"tiger", "Tiger", ⟨false, true, true, false, false⟩, ⟨false, true, true, false, false⟩, true, 10⟩,
    ⟨"horse", "Horse", ⟨false, true, false, false, false⟩, ⟨false, true, false, false, false⟩, true, 10⟩,
    ⟨"monkey", "Monkey", ⟨true, true, true, true, true⟩, ⟨true, true, true, true, true⟩, true, 9⟩,
    ⟨"dog", "Dog", ⟨false, false, false, false, false⟩, ⟨true, true, true, true, true⟩, true, 10⟩,
    ⟨"snake", "Snake", ⟨false, false, false, false, false⟩, ⟨false, false, false, false, false⟩, true, 10⟩,
    ⟨"dragon", "Dragon", ⟨true, false, false, false, true⟩, ⟨true, false, false, false, true⟩, true, 10⟩,
    ⟨"ox", "Ox", ⟨true, false, false, false, false⟩, ⟨true, false, false, false, false⟩, true, 10⟩ ]

/-- The match-count loop of `_calc_two_hand_confidence`: for each of the five
fingers, count one match when the observed boolean equals the expected one.
(Each template supplies all five fingers, so the `if name in expected`
guards of the source always hold, and `states.get(name, False)` always finds
the key since `get_finger_states` returns all five keys.) -/
def countMatches (states expected : FingerStates) : Nat :=
  (if states.thumb = expected.thumb then 1 else 0) +
  (if states.index = expected.index then 1 else 0) +
  (if states.middle = expected.middle then 1 else 0) +
  (if states.ring = expected.ring then 1 else 0) +
  (if states.pinky = expected.pinky then 1 else 0)

/-- The scoring tail of `_calc_two_hand_confidence` as a function of the two
match counts. Each tier branch of the source mutates `total_score` and falls
through to `return min(total_score, 1.0)`; the final `elif left_matches <
min_matches or right_matches < min_matches: return 0` is the exact complement
of the preceding `elif`, hence the `else` here. -/
def confFromCounts (left_matches right_matches : Nat) (joined_mode : Bool) : ℚ :=
  let total_score : ℚ := ((left_matches : ℚ) / 5 + (right_matches : ℚ) / 5) / 2
  let min_matches : Nat := if joined_mode then 2 else 3
  if left_matches = 5 ∧ right_matches = 5 then min 1 1
  else if 4 ≤ left_matches ∧ 4 ≤ right_matches then min (max total_score 0.85) 1
  else if 3 ≤ left_matches ∧ 3 ≤ right_matches then min (max total_score 0.70) 1
  else if min_matches ≤ left_matches ∧ min_matches ≤ right_matches then min (max total_score 0.60) 1
  else 0

/-- `GestureRecognizer._calc_two_hand_confidence`. -/
def calc_two_hand_confidence (left_states right_states : FingerStates)
    (sign_def : GestureTemplate) (joined_mode : Bool) : ℚ :=
  confFromCounts (countMatches left_states sign_def.left_hand)
    (countMatches right_states sign_def.right_hand) joined_mode

/-! ## Hand detector (`hand_detector.py`) -/

/-- A landmark point `(x, y, z)` in frame pixel space. -/
abbrev Point3 := ℚ × ℚ × ℚ

/-- The axis-aligned bounding box `(x, y, w, h)` of a hand observation. -/
structure BoundingBox where
  x : ℚ
  y : ℚ
  w : ℚ
  h : ℚ
deriving DecidableEq

/-- The `HandLandmarks` dataclass of `hand_detector.py`: one hand observation
produced by the external pose estimator. -/
structure HandLandmarks where
  landmarks : List Point3
  handedness : String
  confidence : ℚ
  bounding_box : BoundingBox
deriving DecidableEq

/-- Python list indexing `lm[i]`, used only at positions where the source has
already been established (or is being checked) to be in range; out-of-range
access in the source raises, which the callers below model as `none` via an
explicit length test. -/
def lmAt (lm : List Point3) (i : ℕ) : Point3 :=
  lm.getD i (0, 0, 0)

/-- The square of `HandDetector._get_hand_size` (the 2D distance between the
wrist landmark 0 and the middle-fingertip landmark 12).  The source takes a
square root here; since the size is only ever used inside comparisons against
a nonnegative margin, the embedding keeps the square and compares squares
(see `gtMarginSq`), which is exactly equivalent. -/
def hand_size_sq (lm : List Point3) : ℚ :=
  ((lmAt lm 0).1 - (lmAt lm 12).1) ^ 2 + ((lmAt lm 0).2.1 - (lmAt lm 12).2.1) ^ 2

/-- `threshold < a` where `threshold = hand_size * 0.05` and `s` is the
squared hand size: for `0 ≤ s`, `0.05 * sqrt s < a ↔ 0 < a ∧ 0.0025 * s < a^2`
(square both sides of an inequality between nonnegatives).  This is the exact
decidable embedding of every margin comparison in `get_finger_states`. -/
def gtMarginSq (a s : ℚ) : Bool :=
  0 < a ∧ 0.0025 * s < a ^ 2

/-- `HandDetector.get_finger_states`.  Landmark indices follow the class
constants: THUMB_IP 3, THUMB_TIP 4, INDEX_PIP 6, INDEX_TIP 8, MIDDLE_PIP 10,
MIDDLE_TIP 12, RING_PIP 14, RING_TIP 16, PINKY_PIP 18, PINKY_TIP 20.
When the landmark list has fewer than 21 points, one of the accesses
(`lm[20]` at the latest) raises `IndexError` in Python, modelled as `none`.
Each source comparison `tip < joint - threshold` (resp. `tip > joint +
threshold`) is embedded as `gtMarginSq (joint - tip)` (resp.
`gtMarginSq (tip - joint)`) against the squared hand size. -/
def get_finger_states (hand : HandLandmarks) : Option FingerStates :=
  let lm := hand.landmarks
  if lm.length < 21 then none
  else
    let s := hand_size_sq lm
    some
      { thumb :=
          if hand.handedness = "Right" then gtMarginSq ((lmAt lm 3).1 - (lmAt lm 4).1) s
          else gtMarginSq ((lmAt lm 4).1 - (lmAt lm 3).1) s
        index := gtMarginSq ((lmAt lm 6).2.1 - (lmAt lm 8).2.1) s
        middle := gtMarginSq ((lmAt lm 10).2.1 - (lmAt lm 12).2.1) s
        ring := gtMarginSq ((lmAt lm 14).2.1 - (lmAt lm 16).2.1) s
        pinky := gtMarginSq ((lmAt lm 18).2.1 - (lmAt lm 20).2.1) s }

/-! ## Recognizer state machine (`gesture_recognizer.py`) -/

/-- The `GestureResult` dataclass.  The `finger_states` debug dictionary is
omitted: no caller in the repository ever reads it. -/
structure GestureResult where
  sign_name : String
  confidence : ℚ
  timestamp : ℚ
  is_confirmed : Bool
deriving DecidableEq

/-- The mutable fields of a `GestureRecognizer` instance.  In the source,
`current_gesture` holds a whole `GestureResult` of which only `sign_name` is
ever consulted, and `gesture_start_time` is always assigned and cleared
together with it; the pair is therefore modelled as a single optional
`(sign_name, start_time)`. -/
structure RecognizerState where
  confidence_threshold : ℚ
  hold_time : ℚ
  cooldown : ℚ
  current : Option (String × ℚ)
  last_confirmed_time : ℚ
deriving DecidableEq

/-- `self.hands_distance_threshold`, fixed at 350 in `__init__`. -/
def hands_distance_threshold : ℚ := 350

/-- `self.single_hand_min_width`, fixed at 150 in `__init__`. -/
def single_hand_min_width : ℚ := 150

/-- The score-collection loop of `_find_best_gesture`: one `(sign_name,
confidence, priority)` entry per template whose confidence is positive, in
dictionary order. -/
def scoreTemplates (left_states right_states : FingerStates) (joined_mode : Bool) :
    List (String × ℚ × ℕ) :=
  GESTURE_DEFINITIONS.filterMap fun t =>
    let confidence := calc_two_hand_confidence left_states right_states t joined_mode
    if 0 < confidence then some (t.id, confidence, t.priority) else none

/-- `scores.sort(key=(confidence, priority), reverse=True); scores[0]`:
Python's sort is stable, so the head of the descending-sorted list is the
first entry attaining the lexicographic maximum of `(confidence, priority)`;
the fold below replaces the running best only on a strictly greater key,
which selects exactly that entry. -/
def bestScored : List (String × ℚ × ℕ) → Option (String × ℚ × ℕ)
  | [] => none
  | x :: xs =>
    some (xs.foldl
      (fun best y =>
        if best.2.1 < y.2.1 ∨ (best.2.1 = y.2.1 ∧ best.2.2 < y.2.2) then y else best) x)

/-- The hold-time / cooldown block of `_find_best_gesture` (the state-machine
core): given this frame's winning candidate name, either continue the current
hold (confirming when both the hold time and the cooldown have elapsed) or
start a new hold window. -/
def holdUpdate (st : RecognizerState) (best_match : String) (best_confidence current_time : ℚ) :
    RecognizerState × GestureResult :=
  match st.current with
  | some (name, start) =>
    if name = best_match then
      if st.hold_time ≤ current_time - start ∧
          st.cooldown ≤ current_time - st.last_confirmed_time then
        ({ st with last_confirmed_time := current_time },
          ⟨best_match, best_confidence, current_time, true⟩)
      else (st, ⟨best_match, best_confidence, current_time, false⟩)
    else ({ st with current := some (best_match, current_time) },
      ⟨best_match, best_confidence, current_time, false⟩)
  | none =>
    ({ st with current := some (best_match, current_time) },
      ⟨best_match, best_confidence, current_time, false⟩)

/-- `GestureRecognizer._find_best_gesture`.  The local `threshold =
confidence_threshold - (0.05 if joined_mode else 0)` of the source is
inlined into the acceptance test `scores[0][1] >= threshold`. -/
def find_best_gesture (st : RecognizerState) (left_states right_states : FingerStates)
    (current_time : ℚ) (joined_mode : Bool) : RecognizerState × Option GestureResult :=
  match bestScored (scoreTemplates left_states right_states joined_mode) with
  | some (best_match, best_confidence, _) =>
    if st.confidence_threshold - (if joined_mode then 0.05 else 0) ≤ best_confidence then
      ((holdUpdate st best_match best_confidence current_time).1,
        some (holdUpdate st best_match best_confidence current_time).2)
    else ({ st with current := none }, none)
  | none => ({ st with current := none }, none)

/-- `GestureRecognizer._get_center`: the mean of the landmark coordinates.
Python raises `ZeroDivisionError` on an empty landmark list, modelled as
`none`. -/
def get_center (landmarks : List Point3) : Option (ℚ × ℚ) :=
  if landmarks = [] then none
  else some ((landmarks.map fun p => p.1).sum / landmarks.length,
    (landmarks.map fun p => p.2.1).sum / landmarks.length)

/-- Squared Euclidean distance between two centers; the source compares
`sqrt (sqDist) > hands_distance_threshold`, embedded below as
`hands_distance_threshold ^ 2 < sqDist` (both sides nonnegative). -/
def sqDist (c1 c2 : ℚ × ℚ) : ℚ :=
  (c1.1 - c2.1) ^ 2 + (c1.2 - c2.2) ^ 2

/-- The body of `_recognize_two_separate_hands` after its role-assignment
swap: centroid-distance gate, finger-state extraction for both hands, and
`_find_best_gesture`.  The outer `none` marks an uncaught Python exception
(empty landmark list in `_get_center`, or fewer than 21 landmarks in
`get_finger_states`).  The source compares `sqrt (sqDist c1 c2)` against the
distance threshold; both sides being nonnegative, this is embedded as the
squared comparison. -/
def recognize_ordered_hands (st : RecognizerState) (left_hand right_hand : HandLandmarks)
    (current_time : ℚ) : Option (RecognizerState × Option GestureResult) :=
  match get_center left_hand.landmarks, get_center right_hand.landmarks with
  | some c1, some c2 =>
    if hands_distance_threshold ^ 2 < sqDist c1 c2 then
      some ({ st with current := none }, none)
    else
      match get_finger_states left_hand, get_finger_states right_hand with
      | some left_states, some right_states =>
        some (find_best_gesture st left_states right_states current_time false)
      | _, _ => none
  | _, _ => none

/-- `GestureRecognizer._recognize_two_separate_hands`: assign left/right
roles by inverting the estimator's raw label (the source comment: MediaPipe
"Left" is the user's right hand in the mirrored video), then proceed with
the ordered pair. -/
def recognize_two_separate_hands (st : RecognizerState) (hand1 hand2 : HandLandmarks)
    (current_time : ℚ) : Option (RecognizerState × Option GestureResult) :=
  if hand1.handedness = "Left" then recognize_ordered_hands st hand2 hand1 current_time
  else recognize_ordered_hands st hand1 hand2 current_time

/-- The number of raised fingers, `sum(1 for v in finger_states.values() if v)`. -/
def countExtended (fs : FingerStates) : ℕ :=
  (if fs.thumb then 1 else 0) + (if fs.index then 1 else 0) + (if fs.middle then 1 else 0) +
  (if fs.ring then 1 else 0) + (if fs.pinky then 1 else 0)

/-- `GestureRecognizer._recognize_joined_hands`. -/
def recognize_joined_hands (st : RecognizerState) (hand : HandLandmarks)
    (current_time : ℚ) : Option (RecognizerState × Option GestureResult) :=
  if single_hand_min_width ≤ hand.bounding_box.w then
    match get_finger_states hand with
    | some finger_states => some (find_best_gesture st finger_states finger_states current_time true)
    | none => none
  else
    match get_finger_states hand with
    | some finger_states =>
      if 3 ≤ countExtended finger_states ∧ 120 ≤ hand.bounding_box.w then
        some (find_best_gesture st finger_states finger_states current_time true)
      else some ({ st with current := none }, none)
    | none => none

/-- `GestureRecognizer.recognize_two_hands`, the per-frame entry point. -/
def recognize_two_hands (st : RecognizerState) (hands : List HandLandmarks)
    (current_time : ℚ) : Option (RecognizerState × Option GestureResult) :=
  match hands with
  | [] => some ({ st with current := none }, none)
  | [hand] => recognize_joined_hands st hand current_time
  | hand1 :: hand2 :: _ => recognize_two_separate_hands st hand1 hand2 current_time

/-! ## Frame-sequence helpers for the confirmation count (C4) -/

/-- The frame timestamps `0, 1, ..., D` of a dense continuous hold: one frame
per time unit, with the hold time and cooldown expressed in the same unit. -/
def frameTimes (D : ℕ) : List ℚ :=
  (List.range (D + 1)).map (fun n : ℕ => (n : ℚ))

/-- Iterate the hold/cooldown block of `_find_best_gesture` over a sequence
of frame timestamps on which the same gesture is continuously the winning
candidate, counting the frames emitted with `is_confirmed = true`. -/
def runHold (name : String) (conf : ℚ) : List ℚ → RecognizerState → RecognizerState × ℕ
  | [], st => (st, 0)
  | t :: ts, st =>
    let p := holdUpdate st name conf t
    let q := runHold name conf ts p.1
    (q.1, (if p.2.is_confirmed then 1 else 0) + q.2)

/-- The last-confirmation timestamp after the frames `0, 1, ..., t` of a
dense hold that started at time 0 with initial value `L`: still `L` before
the hold time `h` has elapsed, and the latest confirmation instant
`h + c * ((t - h) / c)` afterwards. -/
def lastAfter (L : ℚ) (h c t : ℕ) : ℚ :=
  if t < h then L else ((h + c * ((t - h) / c) : ℕ) : ℚ)

/-! ## Stabilizer (`GestureStabilizer`) -/

/-- The mutable fields of a `GestureStabilizer` instance. -/
structure GestureStabilizer where
  buffer_size : ℕ
  gesture_buffer : List (Option String)
  confidence_buffer : List ℚ
deriving DecidableEq

/-- `GestureStabilizer.add_gesture`: append, then `pop(0)` from both buffers
once the gesture buffer exceeds the capacity. -/
def add_gesture (st : GestureStabilizer) (gesture_name : Option String)
    (confidence : ℚ) : GestureStabilizer :=
  let gb := st.gesture_buffer ++ [gesture_name]
  let cb := st.confidence_buffer ++ [confidence]
  if st.buffer_size < gb.length then
    { st with gesture_buffer := gb.tail, confidence_buffer := cb.tail }
  else { st with gesture_buffer := gb, confidence_buffer := cb }

/-- One step of the `weighted_counts` accumulation: add `c` to the entry of
`g`, preserving first-occurrence (insertion) order as a Python dict does. -/
def weightedAdd : List (String × ℚ) → String → ℚ → List (String × ℚ)
  | [], g, c => [(g, c)]
  | (g0, w) :: rest, g, c =>
    if g0 = g then (g0, w + c) :: rest else (g0, w) :: weightedAdd rest g c

/-- The `weighted_counts` loop of `get_stable_gesture`: walk the gesture and
confidence buffers in lockstep (the same index `i` addresses both); a missing
confidence entry defaults to 0.5 as in the source. -/
def weightedCountsAux : List (String × ℚ) → List (Option String) → List ℚ → List (String × ℚ)
  | acc, [], _ => acc
  | acc, none :: gs, cs => weightedCountsAux acc gs cs.tail
  | acc, some g :: gs, cs => weightedCountsAux (weightedAdd acc g (cs.headD 0.5)) gs cs.tail

/-- `max(weighted_counts, key=weighted_counts.get)`: Python's `max` scans the
keys in insertion order and replaces the running best only on a strictly
greater value, returning the first key attaining the maximum. -/
def maxWeighted : List (String × ℚ) → Option String
  | [] => none
  | x :: xs => some ((xs.foldl (fun best y => if best.2 < y.2 then y else best) x).1)

/-- `GestureStabilizer.get_stable_gesture`. -/
def get_stable_gesture (st : GestureStabilizer) : Option String :=
  match st.gesture_buffer with
  | [] => none
  | _ =>
    match maxWeighted (weightedCountsAux [] st.gesture_buffer st.confidence_buffer) with
    | none => none
    | some best_gesture =>
      if (st.buffer_size : ℚ) * 0.6 ≤ (st.gesture_buffer.count (some best_gesture) : ℚ) then
        some best_gesture
      else none

/-! ## Spec-side definitions (used only to state refuted or amended claims) -/

/-- Modelled from the spec: the `HandRole` enum of §3. -/
inductive HandRole where
  | Left : HandRole
  | Right : HandRole
deriving DecidableEq

/-- Modelled from the spec: §3's role resolution, "the estimator's raw
handedness label with a fixed inversion". -/
def specRoleOfLabel (label : String) : HandRole :=
  if label = "Left" then HandRole.Right else HandRole.Left

/-- The thumb-extension rule asserted by claim C7: direction selected by the
*inverted* role — for the `Right` role, tip left of joint minus margin; for
the `Left` role, tip right of joint plus margin — with the same margin
comparisons as the code (`gtMarginSq` against the squared hand size), and
`none` on fewer than 21 landmarks. -/
def specC7Thumb (hand : HandLandmarks) : Option Bool :=
  let lm := hand.landmarks
  if lm.length < 21 then none
  else
    let s := hand_size_sq lm
    some (match specRoleOfLabel hand.handedness with
      | HandRole.Right => gtMarginSq ((lmAt lm 3).1 - (lmAt lm 4).1) s
      | HandRole.Left => gtMarginSq ((lmAt lm 4).1 - (lmAt lm 3).1) s)

/-- The thumb rule of C7 as amended: direction keyed directly to the raw
estimator label, exactly as `get_finger_states` computes it. -/
def rawLabelThumb (hand : HandLandmarks) : Bool :=
  let lm := hand.landmarks
  let s := hand_size_sq lm
  if hand.handedness = "Right" then gtMarginSq ((lmAt lm 3).1 - (lmAt lm 4).1) s
  else gtMarginSq ((lmAt lm 4).1 - (lmAt lm 3).1) s

/-- The 21 landmarks of the concrete counterexample hand for C7: thumb
interphalangeal joint (index 3) at x = 50, thumb tip (index 4) at x = 0,
middle fingertip (index 12) at (0, 100) giving hand size 100 (margin 5);
every other landmark at the origin. -/
def c7landmarks : List Point3 :=
  [(0, 0, 0), (0, 0, 0), (0, 0, 0), (50, 0, 0), (0, 0, 0), (0, 0, 0), (0, 0, 0),
   (0, 0, 0), (0, 0, 0), (0, 0, 0), (0, 0, 0), (0, 0, 0), (0, 100, 0), (0, 0, 0),
   (0, 0, 0), (0, 0, 0), (0, 0, 0), (0, 0, 0), (0, 0, 0), (0, 0, 0), (0, 0, 0)]

/-- The concrete counterexample hand for C7: raw estimator label "Left"
(hence role `Right` under the spec's inversion), thumb tip 50 px left of the
thumb joint. -/
def c7hand : HandLandmarks :=
  ⟨c7landmarks, "Left", 1, ⟨0, 0, 200, 200⟩⟩

/-- A malformed hand observation for C5: an empty landmark list (fewer than
21 points) and a narrow bounding box. -/
def c5hand : HandLandmarks :=
  ⟨[], "Right", 1, ⟨0, 0, 100, 100⟩⟩

/-- The counterexample window for C6: gesture "a" occupies exactly 6 of the
10 slots but with zero recorded confidence (the `add_gesture` default), while
"b" occupies 4 slots at confidence 1, so the weighted vote selects "b". -/
def c6buf : List (Option String) :=
  [some "a", some "a", some "a", some "a", some "a", some "a",
   some "b", some "b", some "b", some "b"]

/-- Confidences for `c6buf`. -/
def c6conf : List ℚ :=
  [0, 0, 0, 0, 0, 0, 1, 1, 1, 1]

/-- A window where "a" occupies exactly 6 of 10 slots and wins the weighted
vote (the remaining slots are `none`). -/
def c6buf6 : List (Option String) :=
  [some "a", some "a", some "a", some "a", some "a", some "a", none, none, none, none]

/-- A window where "a" occupies exactly 5 of 10 slots. -/
def c6buf5 : List (Option String) :=
  [some "a", some "a", some "a", some "a", some "a", none, none, none, none, none]

/-- Uniform confidences for the C6 witness windows. -/
def c6conf08 : List ℚ :=
  [0.8, 0.8, 0.8, 0.8, 0.8, 0.8, 0.8, 0.8, 0.8, 0.8]

/-! ## Theorems -/

/-- C1: for every pair of per-finger state maps and every template, with
`min_required` = 2 in joined mode and 3 otherwise, if either hand matches
fewer than `min_required` fingers then `_calc_two_hand_confidence` returns
exactly 0, regardless of the other hand's match count. -/
theorem gate_rejects_below_min_matches (ls rs : FingerStates) (t : GestureTemplate) (j : Bool)
    (h : countMatches ls t.left_hand < (if j then 2 else 3) ∨
         countMatches rs t.right_hand < (if j then 2 else 3)) :
    calc_two_hand_confidence ls rs t j = 0 := by
  unfold calc_two_hand_confidence confFromCounts
  cases j <;> simp only [Bool.false_eq_true, if_false, if_true] at h ⊢ <;>
    split_ifs <;> first | rfl | (exfalso; omega)

/-- Witness for C1 at a concrete input: a left hand matching 0 of tiger's
left pattern makes tiger score 0 outside joined mode even though the right
hand matches 5/5. -/
theorem gate_rejects_below_min_matches_witness :
    calc_two_hand_confidence ⟨true, false, false, true, true⟩
      ⟨false, true, true, false, false⟩
      ⟨"tiger", "Tiger", ⟨false, true, true, false, false⟩,
        ⟨false, true, true, false, false⟩, true, 10⟩ false = 0 :=
  gate_rejects_below_min_matches _ _ _ _ (Or.inl (by decide))

set_option maxHeartbeats 4000000 in
/-- C2: for a fixed template and joined mode, the confidence computed by
`_calc_two_hand_confidence` is monotone in each match count: raising one
hand's match count by one while holding the other fixed never strictly
lowers the confidence. (The second conjunct instantiates the "vice versa"
direction: right count raised from `l` to `l+1` with left count fixed at `r`.) -/
theorem confidence_monotone_in_matches (j : Bool) (l r : ℕ) (hl : l + 1 ≤ 5) (hr : r ≤ 5) :
    confFromCounts l r j ≤ confFromCounts (l + 1) r j ∧
    confFromCounts r l j ≤ confFromCounts r (l + 1) j := by
  have hl4 : l ≤ 4 := by omega
  cases j <;> interval_cases l <;> interval_cases r <;>
    constructor <;> norm_num [confFromCounts]

/-- Witness for C2 at a concrete input: in non-joined mode, raising the left
match count from 3 to 4 with the right count fixed at 5 does not lower the
confidence (and symmetrically for the right hand). -/
theorem confidence_monotone_in_matches_witness :
    confFromCounts 3 5 false ≤ confFromCounts 4 5 false ∧
    confFromCounts 5 3 false ≤ confFromCounts 5 4 false :=
  confidence_monotone_in_matches false 3 5 (by decide) (by decide)

/-- Counterexample to C3: the claim asserts that some input with
`left_matches = 3` and `right_matches = 5` scores exactly 0.70.  The
confidence is a function of the two match counts alone
(`calc_two_hand_confidence` factors through `confFromCounts`), and at counts
(3, 5) the tier floor is taken with `max` against the baseline
`(3/5 + 5/5)/2 = 0.8`, so the result is 0.8 ≠ 0.70 in both modes; a concrete
full input with these counts is evaluated explicitly. -/
theorem tier_floor_3_5_counterexample :
    calc_two_hand_confidence ⟨true, true, true, true, false⟩
      ⟨false, true, true, false, false⟩
      ⟨"tiger", "Tiger", ⟨false, true, true, false, false⟩,
        ⟨false, true, true, false, false⟩, true, 10⟩ false = 0.8 ∧
    countMatches ⟨true, true, true, true, false⟩ ⟨false, true, true, false, false⟩ = 3 ∧
    countMatches ⟨false, true, true, false, false⟩ ⟨false, true, true, false, false⟩ = 5 ∧
    confFromCounts 3 5 false = 0.8 ∧ confFromCounts 3 5 true = 0.8 ∧
    (0.8 : ℚ) ≠ 0.70 := by
  refine ⟨?_, by decide, by decide, ?_, ?_, by norm_num⟩ <;>
    norm_num [calc_two_hand_confidence, confFromCounts, countMatches]

/-- C3 as amended: the flat-tier effect the claim describes occurs at match
counts (3, 4), not (3, 5): a template matching 3 left and 4 right fingers
scores exactly the 0.70 floor, identical to counts (3, 3), discarding the
extra signal of the fourth matching finger; at (3, 5) the baseline 0.8
exceeds the floor and is kept (the floors never lower the baseline). -/
theorem tier_floor_discards_fourth_finger :
    confFromCounts 3 4 false = 0.70 ∧ confFromCounts 3 3 false = 0.70 ∧
    confFromCounts 3 4 true = 0.70 ∧ confFromCounts 3 3 true = 0.70 ∧
    confFromCounts 3 5 false = 0.8 := by
  refine ⟨?_, ?_, ?_, ?_, ?_⟩ <;> norm_num [confFromCounts]

/-- Support lemma: when the frame's best score is below threshold (or no
template scores positively), `_find_best_gesture` returns no result and its
updated state is exactly the input state with the hold cleared. -/
theorem find_best_gesture_none_eq (st : RecognizerState) (ls rs : FingerStates)
    (now : ℚ) (j : Bool) (st1 : RecognizerState)
    (h : find_best_gesture st ls rs now j = (st1, none)) :
    st1 = { st with current := none } := by
  unfold find_best_gesture at h
  repeat' split at h
  all_goals first
    | exact (congrArg Prod.fst h).symm
    | exact absurd (congrArg Prod.snd h) (by simp)

/-- Support lemma: C9 restricted to the joined-hands path. -/
theorem recognize_joined_hands_none_reset (st : RecognizerState) (hand : HandLandmarks)
    (now : ℚ) (st1 : RecognizerState)
    (h : recognize_joined_hands st hand now = some (st1, none)) :
    st1 = { st with current := none } := by
  unfold recognize_joined_hands at h
  split at h
  · split at h
    · exact find_best_gesture_none_eq st _ _ now true st1
        (by rwa [Option.some.injEq] at h)
    · exact absurd h (by simp)
  · split at h
    · split at h
      · exact find_best_gesture_none_eq st _ _ now true st1
          (by rwa [Option.some.injEq] at h)
      · rw [Option.some.injEq, Prod.mk.injEq] at h
        exact h.1.symm
    · exact absurd h (by simp)

/-- Support lemma: C9 restricted to the ordered two-separate-hands body. -/
theorem recognize_ordered_hands_none_reset (st : RecognizerState)
    (left_hand right_hand : HandLandmarks) (now : ℚ) (st1 : RecognizerState)
    (h : recognize_ordered_hands st left_hand right_hand now = some (st1, none)) :
    st1 = { st with current := none } := by
  unfold recognize_ordered_hands at h
  split at h
  · split at h
    · rw [Option.some.injEq, Prod.mk.injEq] at h
      exact h.1.symm
    · split at h
      · exact find_best_gesture_none_eq st _ _ now false st1
          (by rwa [Option.some.injEq] at h)
      · exact absurd h (by simp)
  · exact absurd h (by simp)

/-- C9: on every frame whose processing completes with no winning candidate
(zero hands, hands too far apart, joined-mode heuristics failing, or no
template at or above threshold), the hold state (`current_gesture` /
`gesture_start_time`) is reset to none while `last_confirmed_time` — and
every configuration field — is left unchanged, so the cooldown clock
persists across such frames. -/
theorem no_candidate_resets_hold_but_keeps_cooldown (st : RecognizerState)
    (hands : List HandLandmarks) (now : ℚ) (st1 : RecognizerState)
    (h : recognize_two_hands st hands now = some (st1, none)) :
    st1.current = none ∧ st1.last_confirmed_time = st.last_confirmed_time ∧
    st1.confidence_threshold = st.confidence_threshold ∧
    st1.hold_time = st.hold_time ∧ st1.cooldown = st.cooldown := by
  have key : st1 = { st with current := none } := by
    match hands with
    | [] =>
      rw [show recognize_two_hands st [] now =
          some ({ st with current := none }, none) from rfl] at h
      rw [Option.some.injEq, Prod.mk.injEq] at h
      exact h.1.symm
    | [hand] =>
      exact recognize_joined_hands_none_reset st hand now st1 h
    | hand1 :: hand2 :: rest =>
      rw [show recognize_two_hands st (hand1 :: hand2 :: rest) now =
          recognize_two_separate_hands st hand1 hand2 now from rfl] at h
      unfold recognize_two_separate_hands at h
      split at h
      · exact recognize_ordered_hands_none_reset st hand2 hand1 now st1 h
      · exact recognize_ordered_hands_none_reset st hand1 hand2 now st1 h
  rw [key]
  exact ⟨rfl, rfl, rfl, rfl, rfl⟩

/-- Witness for C9 at a concrete input: a frame with zero hands, processed
from a state with an in-progress hold, resets the hold and keeps the
cooldown timestamp. -/
theorem no_candidate_resets_hold_but_keeps_cooldown_witness :
    ({ confidence_threshold := 0.80, hold_time := 0.4, cooldown := 0.5,
       current := none, last_confirmed_time := 7 } : RecognizerState).current = none ∧
    ({ confidence_threshold := 0.80, hold_time := 0.4, cooldown := 0.5,
       current := none, last_confirmed_time := 7 } : RecognizerState).last_confirmed_time =
      (⟨0.80, 0.4, 0.5, some ("tiger", 3), 7⟩ : RecognizerState).last_confirmed_time :=
  have h := no_candidate_resets_hold_but_keeps_cooldown
    ⟨0.80, 0.4, 0.5, some ("tiger", 3), 7⟩ [] 2
    { (⟨0.80, 0.4, 0.5, some ("tiger", 3), 7⟩ : RecognizerState) with current := none } rfl
  ⟨h.1, h.2.1⟩

/-- C5 as amended: for every hand observation with fewer than 21 landmarks,
`get_finger_states` raises an `IndexError` (modelled as `none`); contrary to
the claim, it neither returns a degenerate all-false state nor confines the
failure to the affected hand — the error propagates through
`recognize_two_hands` and aborts the frame (see the counterexample). -/
theorem get_finger_states_short_hand_raises (hand : HandLandmarks)
    (h : hand.landmarks.length < 21) : get_finger_states hand = none := by
  unfold get_finger_states
  rw [if_pos h]

/-- Witness for the amended C5 at a concrete input: a hand with an empty
landmark list. -/
theorem get_finger_states_short_hand_raises_witness :
    get_finger_states c5hand = none :=
  get_finger_states_short_hand_raises c5hand (by decide)

/-- Counterexample to C5 as claimed: on a frame holding one hand with fewer
than 21 landmarks (and a bounding box wide enough to pass neither joined
heuristic early), the extractor's error is not confined to the hand — the
whole `recognize_two_hands` call raises (modelled as `none`), aborting the
frame instead of returning a no-candidate result. -/
theorem short_hand_aborts_frame_counterexample :
    c5hand.landmarks.length < 21 ∧ get_finger_states c5hand = none ∧
    recognize_two_hands ⟨0.80, 0.4, 0.5, none, 0⟩ [c5hand] 0 = none := by
  refine ⟨by decide, by decide, ?_⟩
  decide

/-- Counterexample to C7: on a concrete 21-landmark hand with raw estimator
label "Left" (role `Right` per the spec's inversion) whose thumb tip lies
50 px left of the thumb joint with margin 5, the claimed rule (direction
selected by the inverted role) yields `true` while the code's
`get_finger_states` yields `false`: the code keys the direction to the raw
label, not the inverted role. -/
theorem thumb_role_inversion_counterexample :
    specC7Thumb c7hand = some true ∧
    Option.map FingerStates.thumb (get_finger_states c7hand) = some false := by
  refine ⟨?_, ?_⟩ <;>
    norm_num [specC7Thumb, get_finger_states, c7hand, c7landmarks, gtMarginSq,
      hand_size_sq, lmAt, specRoleOfLabel] <;> decide

/-- C7 as amended: thumb extension is a horizontal margin comparison whose
direction is keyed directly to the estimator's raw handedness label (raw
label "Right": tip left of joint minus margin; any other raw label: tip right
of joint plus margin), not to the mirror-inverted role. -/
theorem thumb_direction_keyed_to_raw_label (hand : HandLandmarks) (fs : FingerStates)
    (h : get_finger_states hand = some fs) : fs.thumb = rawLabelThumb hand := by
  by_cases hl : hand.landmarks.length < 21
  · simp only [get_finger_states] at h
    rw [if_pos hl] at h
    exact absurd h (by simp)
  · simp only [get_finger_states] at h
    rw [if_neg hl, Option.some.injEq] at h
    rw [← h]
    rfl

/-- Witness for the amended C7 at a concrete input. -/
theorem thumb_direction_keyed_to_raw_label_witness :
    (⟨false, false, false, false, false⟩ : FingerStates).thumb = rawLabelThumb c7hand :=
  thumb_direction_keyed_to_raw_label c7hand ⟨false, false, false, false, false⟩
    (by norm_num [get_finger_states, c7hand, c7landmarks, gtMarginSq, hand_size_sq, lmAt] <;>
      decide)

/-- C8: for a frame with exactly one (well-formed) hand observation,
joined-hand template matching is attempted if and only if the bounding-box
width reaches `single_hand_min_width` (150 px) or at least 3 of the 5
fingers are extended and the width reaches 120 px; when neither signal
holds, no template matching is attempted and the in-progress hold state is
cleared (cooldown timestamp untouched). -/
theorem joined_hands_gating (st : RecognizerState) (hand : HandLandmarks) (now : ℚ)
    (fs : FingerStates) (hfs : get_finger_states hand = some fs) :
    recognize_joined_hands st hand now =
      if single_hand_min_width ≤ hand.bounding_box.w ∨
          (3 ≤ countExtended fs ∧ 120 ≤ hand.bounding_box.w) then
        some (find_best_gesture st fs fs now true)
      else some ({ st with current := none }, none) := by
  unfold recognize_joined_hands
  simp only [hfs]
  by_cases h1 : single_hand_min_width ≤ hand.bounding_box.w
  · rw [if_pos h1, if_pos (Or.inl h1)]
  · rw [if_neg h1]
    by_cases h2 : 3 ≤ countExtended fs ∧ 120 ≤ hand.bounding_box.w
    · rw [if_pos h2, if_pos (Or.inr h2)]
    · rw [if_neg h2, if_neg (by tauto)]

/-- Witness for C8 at a concrete input: a single hand of width 100 px with
one extended finger engages neither joined-hand signal, so no matching is
attempted and the hold state is cleared. -/
theorem joined_hands_gating_witness :
    recognize_joined_hands ⟨0.80, 0.4, 0.5, some ("ox", 1), 9⟩
      ⟨c7landmarks, "Right", 1, ⟨0, 0, 100, 100⟩⟩ 10 =
      some ({ (⟨0.80, 0.4, 0.5, some ("ox", 1), 9⟩ : RecognizerState) with
        current := none }, none) := by
  rw [joined_hands_gating _ _ _ ⟨true, false, false, false, false⟩
    (by norm_num [get_finger_states, c7landmarks, gtMarginSq, hand_size_sq, lmAt] <;> decide)]
  rw [if_neg (by norm_num [single_hand_min_width, countExtended])]

/-- Counterexample to C6: in the window `c6buf` the gesture "a" occupies
exactly 6 of the 10 slots, yet `get_stable_gesture` does not return "a" — it
returns `none`, because the weighted vote (confidence sums) selects "b"
(weight 4 versus 0) and "b" then fails the 60% occupancy gate. -/
theorem stabilizer_six_slots_counterexample :
    c6buf.count (some "a") = 6 ∧ c6buf.length = 10 ∧
    get_stable_gesture ⟨10, c6buf, c6conf⟩ = none := by
  refine ⟨by decide, by decide, ?_⟩
  norm_num [get_stable_gesture, c6buf, c6conf, weightedCountsAux, weightedAdd, maxWeighted]
  decide

/-- C6 as amended: with window size 10, a gesture occupying exactly 6 of the
10 slots is returned by `get_stable_gesture` provided it also wins the
confidence-weighted vote (`maxWeighted` of the `weighted_counts` dictionary),
which holds in particular when all samples carry equal positive confidence;
a gesture occupying only 5 of 10 slots is never returned, whatever the
confidences. -/
theorem stabilizer_sixty_percent_boundary :
    (∀ st : GestureStabilizer, st.buffer_size = 10 → ∀ g : String,
      maxWeighted (weightedCountsAux [] st.gesture_buffer st.confidence_buffer) = some g →
      st.gesture_buffer.count (some g) = 6 → get_stable_gesture st = some g) ∧
    (∀ st : GestureStabilizer, st.buffer_size = 10 → ∀ g : String,
      st.gesture_buffer.count (some g) = 5 → get_stable_gesture st ≠ some g) := by
  constructor
  · intro st h10 g hmax hcount
    unfold get_stable_gesture
    split
    · rename_i heq
      rw [heq] at hcount
      simp at hcount
    · simp only [hmax, h10, hcount]
      rw [if_pos (by norm_num)]
  · intro st h10 g hcount hstable
    unfold get_stable_gesture at hstable
    split at hstable
    · exact absurd hstable (by simp)
    · split at hstable
      · exact absurd hstable (by simp)
      · split at hstable
        · rename_i best hmax hguard
          rw [Option.some.injEq] at hstable
          rw [hstable, h10, hcount] at hguard
          norm_num at hguard
        · exact absurd hstable (by simp)

/-- Witness for the amended C6 at concrete inputs: 6 of 10 slots at uniform
confidence 0.8 is accepted; 5 of 10 slots is rejected. -/
theorem stabilizer_sixty_percent_boundary_witness :
    get_stable_gesture ⟨10, c6buf6, c6conf08⟩ = some "a" ∧
    get_stable_gesture ⟨10, c6buf5, c6conf08⟩ ≠ some "a" :=
  ⟨stabilizer_sixty_percent_boundary.1 ⟨10, c6buf6, c6conf08⟩ rfl "a"
      (by norm_num [c6buf6, c6conf08, weightedCountsAux, weightedAdd, maxWeighted])
      (by decide),
    stabilizer_sixty_percent_boundary.2 ⟨10, c6buf5, c6conf08⟩ rfl "a" (by decide)⟩

/-- C10: the stabilizer's acceptance gate compares the raw occurrence count
against 60% of the fixed window capacity `buffer_size`, not of the current
fill level: any partially filled window with fewer than `0.6 * capacity`
samples yields `none`, even when every buffered sample is the same
gesture. -/
theorem stabilizer_gate_uses_capacity (st : GestureStabilizer) (g : String)
    (hall : ∀ x ∈ st.gesture_buffer, x = some g)
    (hfill : (st.gesture_buffer.length : ℚ) < (st.buffer_size : ℚ) * 0.6) :
    get_stable_gesture st = none := by
  unfold get_stable_gesture
  split
  · rfl
  · split
    · rfl
    · rename_i best hmax
      have hcount : st.gesture_buffer.count (some best) ≤ st.gesture_buffer.length :=
        List.count_le_length _ _
      have hlt : (st.gesture_buffer.count (some best) : ℚ) < (st.buffer_size : ℚ) * 0.6 :=
        lt_of_le_of_lt (by exact_mod_cast hcount) hfill
      rw [if_neg (not_le.mpr hlt)]

/-- Witness for C10 at a concrete input: a capacity-10 window holding only
two samples, both the same gesture, yields no stable gesture. -/
theorem stabilizer_gate_uses_capacity_witness :
    get_stable_gesture ⟨10, [some "a", some "a"], [0.9, 0.9]⟩ = none :=
  stabilizer_gate_uses_capacity ⟨10, [some "a", some "a"], [0.9, 0.9]⟩ "a"
    (by decide) (by norm_num)

/-- Support lemma for C4 — one dense frame: processing frame `a ≥ 1` of a
continuous hold of gesture `g` that started at time 0, with the
last-confirmation timestamp at its invariant value for `a - 1`, confirms
exactly when the hold time `h` has elapsed and `a - h` is a multiple of the
cooldown `c`, and moves the timestamp to its invariant value for `a`. -/
theorem holdUpdate_dense_step (g : String) (conf : ℚ) (h c a : ℕ) (L : ℚ)
    (st : RecognizerState)
    (hh : 1 ≤ h) (hc : 1 ≤ c) (ha : 1 ≤ a) (hL : L ≤ -(c : ℚ))
    (hhold : st.hold_time = (h : ℚ)) (hcool : st.cooldown = (c : ℚ))
    (hcur : st.current = some (g, (0 : ℚ)))
    (hlast : st.last_confirmed_time = lastAfter L h c (a - 1)) :
    holdUpdate st g conf (a : ℚ) =
      ({ st with last_confirmed_time := lastAfter L h c a },
        ⟨g, conf, (a : ℚ), decide (h ≤ a ∧ (a - h) % c = 0)⟩) := by
  unfold holdUpdate
  simp only [hcur]
  rw [if_pos trivial, hhold, hcool, hlast, sub_zero]
  rcases Nat.lt_or_ge a h with hah | hah
  · -- hold time not yet reached: state unchanged, not confirmed
    have hcond : ¬((h : ℚ) ≤ (a : ℚ) ∧ (c : ℚ) ≤ (a : ℚ) - lastAfter L h c (a - 1)) := by
      rintro ⟨h1, h2⟩
      have : h ≤ a := by exact_mod_cast h1
      omega
    rw [if_neg hcond]
    have e1 : lastAfter L h c a = lastAfter L h c (a - 1) := by
      unfold lastAfter
      rw [if_pos hah, if_pos (by omega)]
    have e2 : decide (h ≤ a ∧ (a - h) % c = 0) = false :=
      decide_eq_false (by rintro ⟨h1, h2⟩; omega)
    rw [e1, ← hlast, e2, ← hhold, ← hcool, ← hcur]
  · rcases Nat.lt_or_ge h a with hgt | hge
    · -- past the hold time: the previous confirmation was at h + c*((a-1-h)/c)
      obtain ⟨q, r, hrc, hkeq⟩ : ∃ q r, r < c ∧ a - h = c * q + r :=
        ⟨(a - h) / c, (a - h) % c, Nat.mod_lt _ (by omega), (Nat.div_add_mod (a - h) c).symm⟩
      have hdiv : (a - h) / c = q := by
        rw [hkeq, Nat.mul_add_div (by omega), Nat.div_eq_of_lt hrc, Nat.add_zero]
      have hmod : (a - h) % c = r := by
        rw [hkeq, Nat.mul_add_mod, Nat.mod_eq_of_lt hrc]
      have hprevlt : ¬(a - 1 < h) := by omega
      have half : ¬(a < h) := by omega
      rcases Nat.eq_zero_or_pos r with hr0 | hrpos
      · -- r = 0: this frame confirms; the cooldown has exactly elapsed
        subst hr0
        obtain ⟨q1, rfl⟩ : ∃ q1, q = q1 + 1 := by
          refine ⟨q - 1, ?_⟩
          rcases Nat.eq_zero_or_pos q with h0 | h1
          · subst h0; omega
          · omega
        have hprevdiv : (a - 1 - h) / c = q1 := by
          have e : a - 1 - h = c * q1 + (c - 1) := by
            have e2 : c * (q1 + 1) = c * q1 + c := by ring
            omega
          rw [e, Nat.mul_add_div (by omega), Nat.div_eq_of_lt (by omega), Nat.add_zero]
        have haq : a = h + c * q1 + c := by
          have e2 : c * (q1 + 1) = c * q1 + c := by ring
          omega
        have hcond : (h : ℚ) ≤ (a : ℚ) ∧ (c : ℚ) ≤ (a : ℚ) - lastAfter L h c (a - 1) := by
          constructor
          · exact_mod_cast Nat.le_of_lt hgt
          · unfold lastAfter
            rw [if_neg hprevlt, hprevdiv]
            rw [le_sub_iff_add_le, ← Nat.cast_add, Nat.cast_le]
            omega
        rw [if_pos hcond]
        have e1 : lastAfter L h c a = (a : ℚ) := by
          unfold lastAfter
          rw [if_neg half, hdiv]
          have e3 : h + c * (q1 + 1) = a := by
            have e4 : c * (q1 + 1) = c * q1 + c := by ring
            omega
          rw [e3]
        have e2 : decide (h ≤ a ∧ (a - h) % c = 0) = true :=
          decide_eq_true ⟨Nat.le_of_lt hgt, by omega⟩
        rw [e1, e2]
      · -- 0 < r < c: cooldown not yet elapsed, state unchanged
        have hprevdiv : (a - 1 - h) / c = q := by
          have e : a - 1 - h = c * q + (r - 1) := by omega
          rw [e, Nat.mul_add_div (by omega), Nat.div_eq_of_lt (by omega), Nat.add_zero]
        have hcond : ¬((h : ℚ) ≤ (a : ℚ) ∧ (c : ℚ) ≤ (a : ℚ) - lastAfter L h c (a - 1)) := by
          rintro ⟨h1, h2⟩
          rw [lastAfter, if_neg hprevlt, hprevdiv,
            le_sub_iff_add_le, ← Nat.cast_add, Nat.cast_le] at h2
          omega
        rw [if_neg hcond]
        have e1 : lastAfter L h c a = lastAfter L h c (a - 1) := by
          unfold lastAfter
          rw [if_neg half, if_neg hprevlt, hdiv, hprevdiv]
        have e2 : decide (h ≤ a ∧ (a - h) % c = 0) = false :=
          decide_eq_false (by rintro ⟨h1, h2⟩; omega)
        rw [e1, ← hlast, e2, ← hhold, ← hcool, ← hcur]
    · -- a = h: the first confirmation of the hold
      have haeq : a = h := by omega
      subst haeq
      have e0 : lastAfter L a c (a - 1) = L := by
        unfold lastAfter
        rw [if_pos (by omega)]
      have hcond : (a : ℚ) ≤ (a : ℚ) ∧ (c : ℚ) ≤ (a : ℚ) - lastAfter L a c (a - 1) := by
        refine ⟨le_refl _, ?_⟩
        rw [e0]
        have h1 : (0 : ℚ) ≤ (a : ℚ) := Nat.cast_nonneg a
        linarith
      rw [if_pos hcond]
      have e1 : lastAfter L a c a = (a : ℚ) := by
        unfold lastAfter
        rw [if_neg (by omega), Nat.sub_self, Nat.zero_div, Nat.mul_zero, Nat.add_zero]
      have e2 : decide (a ≤ a ∧ (a - a) % c = 0) = true :=
        decide_eq_true ⟨le_refl _, by rw [Nat.sub_self, Nat.zero_mod]⟩
      rw [e1, e2]

/-- Support lemma for C4 — the dense run: over frames `a, a+1, ..., a+b-1`
of a continuous hold of `g` started at time 0 (invariant state entering
frame `a`), the number of frames emitted confirmed equals the number of
instants `t` in the range with `h ≤ t` and `(t - h) % c = 0`. -/
theorem runHold_dense_inv (g : String) (conf : ℚ) (h c : ℕ) (L : ℚ)
    (hh : 1 ≤ h) (hc : 1 ≤ c) (hL : L ≤ -(c : ℚ)) :
    ∀ b a, 1 ≤ a → ∀ st : RecognizerState,
      st.hold_time = (h : ℚ) → st.cooldown = (c : ℚ) →
      st.current = some (g, (0 : ℚ)) →
      st.last_confirmed_time = lastAfter L h c (a - 1) →
      (runHold g conf ((List.range' a b).map (fun n : ℕ => (n : ℚ))) st).2 =
        (List.range' a b).countP fun t => decide (h ≤ t ∧ (t - h) % c = 0) := by
  intro b
  induction b with
  | zero =>
    intro a ha st h1 h2 h3 h4
    rfl
  | succ b ih =>
    intro a ha st h1 h2 h3 h4
    rw [List.range'_succ, List.map_cons]
    simp only [runHold, holdUpdate_dense_step g conf h c a L st hh hc ha hL h1 h2 h3 h4,
      List.countP_cons]
    rw [ih (a + 1) (by omega) { st with last_confirmed_time := lastAfter L h c a }
      h1 h2 h3 rfl]
    simp only [decide_eq_true_eq]
    omega

/-- Support lemma for C4 — counting the confirmation instants: among the
dense frames `1, ..., D` with `h ≤ D`, exactly `(D - h) / c + 1` instants
satisfy `h ≤ t ∧ (t - h) % c = 0`. -/
theorem countP_confirm_instants (h c : ℕ) (hh : 1 ≤ h) (hc : 1 ≤ c) :
    ∀ D, h ≤ D →
      (List.range' 1 D).countP (fun t => decide (h ≤ t ∧ (t - h) % c = 0)) =
        (D - h) / c + 1 := by
  intro D
  induction D with
  | zero => intro hD; omega
  | succ D ih =>
    intro hD
    have hconcat : List.range' 1 (D + 1) = List.range' 1 D ++ [1 + D] := by
      simp [List.range'_concat]
    rw [hconcat, List.countP_append]
    rcases Nat.lt_or_ge D h with hDh | hDh
    · have hzero : (List.range' 1 D).countP (fun t => decide (h ≤ t ∧ (t - h) % c = 0)) = 0 := by
        apply List.countP_eq_zero.mpr
        intro t ht
        rw [List.mem_range'_1] at ht
        simp only [decide_eq_true_eq, not_and]
        intro h1
        omega
      have hone : List.countP (fun t => decide (h ≤ t ∧ (t - h) % c = 0)) [1 + D] = 1 := by
        have hdec : decide (h ≤ 1 + D ∧ (1 + D - h) % c = 0) = true :=
          decide_eq_true ⟨by omega, by rw [show 1 + D - h = 0 from by omega, Nat.zero_mod]⟩
        simp only [List.countP_cons, List.countP_nil, hdec, if_true]
      rw [hzero, hone, show D + 1 - h = 0 from by omega, Nat.zero_div]
    · rw [ih hDh]
      have hsplit : List.countP (fun t => decide (h ≤ t ∧ (t - h) % c = 0)) [1 + D] =
          if (D - h + 1) % c = 0 then 1 else 0 := by
        by_cases hmod : (D - h + 1) % c = 0
        · have hdec : decide (h ≤ 1 + D ∧ (1 + D - h) % c = 0) = true :=
            decide_eq_true ⟨by omega,
              by rw [show 1 + D - h = D - h + 1 from by omega]; exact hmod⟩
          simp only [List.countP_cons, List.countP_nil, hdec, if_pos hmod, if_true]
        · have hdec : decide (h ≤ 1 + D ∧ (1 + D - h) % c = 0) = false :=
            decide_eq_false (by
              rintro ⟨h1, h2⟩
              rw [show 1 + D - h = D - h + 1 from by omega] at h2
              exact hmod h2)
          simp only [List.countP_cons, List.countP_nil, hdec, if_neg hmod,
            Bool.false_eq_true, if_false]
      rw [hsplit, show D + 1 - h = D - h + 1 from by omega, Nat.succ_div]
      by_cases hmod : (D - h + 1) % c = 0
      · rw [if_pos hmod, if_pos (Nat.dvd_iff_mod_eq_zero.mpr hmod)]
      · rw [if_neg hmod, if_neg (fun hd => hmod (Nat.dvd_iff_mod_eq_zero.mp hd))]

/-- C4: single-shot confirmation count.  For a dense continuous hold of the
same winning gesture over the frames `0, 1, ..., D` (one frame per time
unit), with hold time `h ≥ 1` and cooldown `c ≥ 1` frames, `h ≤ D`, the hold
starting from a cleared state and the cooldown initially elapsed
(`last_confirmed_time ≤ -c`), the number of frames emitted with
`is_confirmed = true` by the hold/cooldown block of `_find_best_gesture` is
exactly `⌊(D - h) / c⌋ + 1` — never more. -/
theorem single_shot_confirmation_count (g : String) (conf : ℚ) (h c D : ℕ)
    (st : RecognizerState) (hh : 1 ≤ h) (hc : 1 ≤ c) (hD : h ≤ D)
    (hhold : st.hold_time = (h : ℚ)) (hcool : st.cooldown = (c : ℚ))
    (hcur : st.current = none) (hlast : st.last_confirmed_time ≤ -(c : ℚ)) :
    (runHold g conf (frameTimes D) st).2 = (D - h) / c + 1 := by
  have hrange : List.range (D + 1) = 0 :: List.range' 1 D := by
    rw [List.range_eq_range']
    have := List.range'_succ 0 D 1
    simpa using this
  have h0 : holdUpdate st g conf ((0 : ℕ) : ℚ) =
      ({ st with current := some (g, (0 : ℚ)) }, ⟨g, conf, ((0 : ℕ) : ℚ), false⟩) := by
    unfold holdUpdate
    simp only [hcur, Nat.cast_zero]
  unfold frameTimes
  rw [hrange, List.map_cons]
  simp only [runHold, h0]
  rw [runHold_dense_inv g conf h c st.last_confirmed_time hh hc hlast D 1 (le_refl 1)
    { st with current := some (g, (0 : ℚ)) } hhold hcool rfl
    (by unfold lastAfter; rw [if_pos (by omega)])]
  rw [countP_confirm_instants h c hh hc D hD]
  simp

/-- Witness for C4 at a concrete input: hold time 1 frame, cooldown 2
frames, frames 0..3 — the hold confirms at t = 1 and t = 3, i.e.
`(3 - 1) / 2 + 1 = 2` confirmed frames. -/
theorem single_shot_confirmation_count_witness :
    (runHold "tiger" 1 (frameTimes 3)
      ⟨0.8, ((1 : ℕ) : ℚ), ((2 : ℕ) : ℚ), none, -((2 : ℕ) : ℚ)⟩).2 = 2 :=
  (single_shot_confirmation_count "tiger" 1 1 2 3
    ⟨0.8, ((1 : ℕ) : ℚ), ((2 : ℕ) : ℚ), none, -((2 : ℕ) : ℚ)⟩
    (by decide) (by decide) (by decide) rfl rfl rfl (le_refl _)).trans (by decide)
